import Mathlib

/-!
Verification development for the up-symk adapter: a shallow embedding of
the SymK unified-planning integration (symk_base.py, symk.py,
osp_pddl_writer.py) together with proofs about its command construction,
result classification, incremental plan-output scanning, and the
oversubscription (OSP) problem rewriting.

Machine strings are modelled as Lean String values; the Python string
operations the source uses (startswith, endswith, the in operator, strip,
split, replace, find plus slicing) are modelled on explicit character
lists so that every definition is executable and evaluates on concrete
inputs.
-/

namespace UpSymk

/-! ### Python string primitives, modelled on explicit character lists -/

/-- Models the Python method startswith. -/
def strStartsWith (s pat : String) : Bool :=
  pat.toList.isPrefixOf s.toList

/-- Models the Python method endswith. -/
def strEndsWith (s pat : String) : Bool :=
  pat.toList.reverse.isPrefixOf s.toList.reverse

/-- Scans a character list for an occurrence of the pattern sub. -/
def containsSubAux (sub : List Char) : List Char → Bool
  | [] => sub.isEmpty
  | c :: cs => sub.isPrefixOf (c :: cs) || containsSubAux sub cs

/-- Models the Python operator in on strings (substring test). -/
def strContains (s sub : String) : Bool :=
  containsSubAux sub.toList s.toList

/-- Models the Python method strip (remove leading and trailing whitespace). -/
def pyStrip (s : String) : String :=
  String.mk (((s.toList.dropWhile Char.isWhitespace).reverse.dropWhile Char.isWhitespace).reverse)

/-- Helper for pySplitWs: whitespace split where acc holds the characters
of the current word in reverse. -/
def splitWsAux : List Char → List Char → List String
  | [], acc => if acc.isEmpty then [] else [String.mk acc.reverse]
  | c :: cs, acc =>
    if c.isWhitespace then
      if acc.isEmpty then splitWsAux cs [] else String.mk acc.reverse :: splitWsAux cs []
    else splitWsAux cs (c :: acc)

/-- Models the Python method split with no argument: split on runs of
whitespace, dropping empty words. -/
def pySplitWs (s : String) : List String :=
  splitWsAux s.toList []

/-- Replace every non-overlapping occurrence of old by new, scanning left
to right. The fuel argument makes the recursion structural; instantiated
with the length of the scanned list it never runs out, because every
recursive call removes at least one character when old is nonempty. -/
def replaceAux (old new : List Char) : Nat → List Char → List Char
  | _, [] => []
  | 0, l => l
  | fuel + 1, c :: cs =>
    if old.isPrefixOf (c :: cs) then
      new ++ replaceAux old new fuel (List.drop (old.length - 1) cs)
    else c :: replaceAux old new fuel cs

/-- Models the Python method replace for a nonempty pattern, the only case
the source exercises (for an empty pattern this definition returns the
input unchanged, while Python would interleave the replacement). -/
def pyReplace (s old new : String) : String :=
  if old.toList.isEmpty then s
  else String.mk (replaceAux old.toList new.toList s.toList.length s.toList)

/-! ### Result classification (symk_base.py, SymKMixin._result_status) -/

/-- The PlanGenerationResultStatus values the adapter uses. -/
inductive ResultStatus
  | SOLVED_OPTIMALLY
  | SOLVED_SATISFICING
  | INTERMEDIATE
  | UNSOLVABLE_PROVEN
  | UNSOLVABLE_INCOMPLETELY
  | TIMEOUT
  | INTERNAL_ERROR
  deriving DecidableEq

/-- Embeds SymKMixin._result_status (symk_base.py lines 87 to 117).
metrics is the truthiness of problem.quality_metrics, plan tells whether a
plan object is present (plan is None in the source maps to plan = false),
retval is the subprocess exit code (None in the legacy path), and the two
guarantee arguments embed the instance fields _guarantee_no_plan_found and
_guarantee_metrics_task. -/
def resultStatus (metrics plan : Bool) (retval : Option Int)
    (guarantee_no_plan_found guarantee_metrics_task : ResultStatus) : ResultStatus :=
  let solved := if metrics then guarantee_metrics_task else ResultStatus.SOLVED_SATISFICING
  match retval with
  | none => if plan then solved else guarantee_no_plan_found
  | some r =>
    if r = 0 ∨ r = 1 ∨ r = 2 ∨ r = 3 then
      if plan then solved else guarantee_no_plan_found
    else if r = 10 ∨ r = 11 then ResultStatus.UNSOLVABLE_PROVEN
    else if r = 12 then ResultStatus.UNSOLVABLE_INCOMPLETELY
    else ResultStatus.INTERNAL_ERROR

/-- The classification table of the spec (section 4.5), written from the
spec text: absent exit code branches on plan presence, codes 0 to 3 branch
the same way, codes 10 and 11 give UNSOLVABLE_PROVEN regardless of plan
presence, code 12 gives UNSOLVABLE_INCOMPLETELY, anything else gives
INTERNAL_ERROR. -/
def specClassify (plan_found : Bool) (exit_code : Option Int) (has_quality_metrics : Bool)
    (guarantee_if_no_plan guarantee_if_metrics : ResultStatus) : ResultStatus :=
  match exit_code with
  | none =>
    if plan_found then
      if has_quality_metrics then guarantee_if_metrics else ResultStatus.SOLVED_SATISFICING
    else guarantee_if_no_plan
  | some c =>
    if c = 0 ∨ c = 1 ∨ c = 2 ∨ c = 3 then
      if plan_found then
        if has_quality_metrics then guarantee_if_metrics else ResultStatus.SOLVED_SATISFICING
      else guarantee_if_no_plan
    else if c = 10 ∨ c = 11 then ResultStatus.UNSOLVABLE_PROVEN
    else if c = 12 then ResultStatus.UNSOLVABLE_INCOMPLETELY
    else ResultStatus.INTERNAL_ERROR

/-! ### Command construction (symk_base.py, _base_cmd / _get_cmd / _get_anytime_cmd) -/

/-- The configuration fields SymKMixin.__init__ stores, plus the two path
constants _base_cmd reads (sys.executable and the resource path of
fast-downward.py). The driver options are modelled as a token list, which
is how the source uses them. -/
structure SymKConfig where
  symk_search_config : Option String
  symk_anytime_search_config : Option String
  symk_driver_options : Option (List String)
  symk_translate_options : Option (List String)
  symk_preprocess_options : Option (List String)
  symk_search_time_limit : Option String
  log_level : String
  interpreter : String
  downward : String
  deriving DecidableEq

/-- Embeds SymKMixin._base_cmd (symk_base.py lines 47 to 56). -/
def base_cmd (c : SymKConfig) (plan_filename : String) : List String :=
  [c.interpreter, c.downward, "--plan-file", plan_filename]
  ++ (match c.symk_driver_options with
      | none => []
      | some fl => fl)
  ++ (match c.symk_search_time_limit with
      | none => []
      | some t => ["--search-time-limit", t])
  ++ ["--log-level", c.log_level]

/-- The tokens contributed by symk_translate_options; the source guards
with Python truthiness, so an absent or empty list contributes nothing. -/
def translate_chunk (c : SymKConfig) : List String :=
  match c.symk_translate_options with
  | none => []
  | some l => if l.isEmpty then [] else "--translate-options" :: l

/-- The tokens contributed by symk_preprocess_options, with the same
truthiness guard as in the source. -/
def preprocess_chunk (c : SymKConfig) : List String :=
  match c.symk_preprocess_options with
  | none => []
  | some l => if l.isEmpty then [] else "--preprocess-options" :: l

/-- The tokens contributed by a search configuration string: when the
string is truthy, the tokens --search-options --search followed by the
configuration split on whitespace. -/
def search_chunk (sc : Option String) : List String :=
  match sc with
  | none => []
  | some s => if s.toList.isEmpty then [] else ["--search-options", "--search"] ++ pySplitWs s

/-- Embeds SymKMixin._get_cmd (symk_base.py lines 58 to 69). -/
def get_cmd (c : SymKConfig) (domain_filename problem_filename plan_filename : String) :
    List String :=
  base_cmd c plan_filename ++ [domain_filename, problem_filename]
  ++ translate_chunk c ++ preprocess_chunk c ++ search_chunk c.symk_search_config

/-- Embeds SymKMixin._get_anytime_cmd (symk_base.py lines 71 to 85). -/
def get_anytime_cmd (c : SymKConfig) (domain_filename problem_filename plan_filename : String) :
    List String :=
  base_cmd c plan_filename ++ [domain_filename, problem_filename]
  ++ translate_chunk c ++ preprocess_chunk c ++ search_chunk c.symk_anytime_search_config

/-- The mode selector of the spec component CommandBuilder. -/
inductive Mode
  | oneShot
  | anytime
  deriving DecidableEq

/-- The token sequence prescribed by the spec (section 4.1), written from
the spec text in its fixed order: interpreter path, solver entry script,
plan file flag, optional driver flags verbatim, optional search time
limit, log level, domain path, problem path, optional translate options,
optional preprocess options, and the search options of the selected mode.
A field is read as present when it is set and nonempty (the truthiness
the adapter applies); an absent field contributes zero tokens. -/
def specTokens (mode : Mode) (c : SymKConfig) (domain_filename problem_filename plan_filename : String) :
    List String :=
  [c.interpreter, c.downward]
  ++ ["--plan-file", plan_filename]
  ++ (match c.symk_driver_options with
      | none => []
      | some fl => fl)
  ++ (match c.symk_search_time_limit with
      | none => []
      | some t => ["--search-time-limit", t])
  ++ ["--log-level", c.log_level]
  ++ [domain_filename, problem_filename]
  ++ (match c.symk_translate_options with
      | none => []
      | some l => if l.isEmpty then [] else "--translate-options" :: l)
  ++ (match c.symk_preprocess_options with
      | none => []
      | some l => if l.isEmpty then [] else "--preprocess-options" :: l)
  ++ (match (match mode with
             | Mode.oneShot => c.symk_search_config
             | Mode.anytime => c.symk_anytime_search_config) with
      | none => []
      | some s => if s.toList.isEmpty then [] else ["--search-options", "--search"] ++ pySplitWs s)

/-- A copy of the configuration with every optional field absent. -/
def clearOptions (c : SymKConfig) : SymKConfig :=
  { c with
    symk_search_config := none
    symk_anytime_search_config := none
    symk_driver_options := none
    symk_translate_options := none
    symk_preprocess_options := none
    symk_search_time_limit := none }

/-! ### Incremental plan-output scanning (symk.py lines 84 to 93 plus the
spec state machine of section 4.3) -/

/-- Embeds SymKOptimalPDDLPlanner._starting_plan_str (symk.py line 85). -/
def starting_plan_str : String := "New plan"

/-- Embeds SymKOptimalPDDLPlanner._ending_plan_str (symk.py line 88). -/
def ending_plan_str : String := "step(s)"

/-- Embeds SymKOptimalPDDLPlanner._parse_plan_line (symk.py lines 90 to
93): a line starting with the timestamp tag gives the empty string, any
other line is cut at its first opening parenthesis, stripped, and wrapped
in parentheses. -/
def parse_plan_line (plan_line : String) : String :=
  if strStartsWith plan_line "[t=" then ""
  else "(" ++ pyStrip (String.mk (plan_line.toList.takeWhile (fun ch => ch ≠ '('))) ++ ")"

/-- State of the line-oriented scanner: whether a plan is being collected,
the steps buffered so far, and the plan events emitted so far. -/
structure ScanState where
  collecting : Bool
  buffer : List String
  plans : List (List String)
  deriving DecidableEq

/-- Modelled from the spec: the plan-header recognition of the section 4.3
state machine. The per-line driver that calls the three hook methods lives
in the host planning framework, outside this repository, so it is taken
from the spec text: a header is a line carrying the timestamp and size
tag, a plan index and a trailing colon. -/
def isPlanHeader (line : String) : Bool :=
  strStartsWith line "[t=" && strContains line "Plan " && strEndsWith line ":"

/-- Modelled from the spec: one transition of the section 4.3 state
machine (its driver lives in the host framework, outside this repository),
instantiated with the hook methods of the source: a header starts
collection with a cleared buffer; while collecting, a line containing the
ending marker step(s) emits the buffered steps as one plan event; any
other line while collecting is rewritten by parse_plan_line and appended
when nonempty (timestamp-tagged lines yield the empty string and are
ignored); outside collection other lines are ignored. -/
def scanLine (st : ScanState) (line : String) : ScanState :=
  if isPlanHeader line then { st with collecting := true, buffer := [] }
  else if st.collecting && strContains line ending_plan_str then
    { collecting := false, buffer := [], plans := st.plans ++ [st.buffer] }
  else if st.collecting then
    let s := parse_plan_line line
    if s.toList.isEmpty then st else { st with buffer := st.buffer ++ [s] }
  else st

/-- Modelled from the spec: running the section 4.3 state machine over a
line sequence from the initial Idle state. -/
def scanLines (lines : List String) : ScanState :=
  lines.foldl scanLine { collecting := false, buffer := [], plans := [] }

/-- The exact line sequence of the spec test for the scanner. -/
def demoLines : List String :=
  ["[t=0.1s, 10 KB] Plan 1:", "(move a b)", "[t=0.1s, 10 KB] Plan cost: 1", "3 step(s)."]

/-! ### Oversubscription problem rewriting (osp_pddl_writer.py) -/

/-- One soft goal of the oversubscription metric, as the strings the
writer renders: the fluent name of the fact, the rendered argument list
of that fact (arguments joined by spaces, the outer parentheses of
get_nary_expression_string stripped), and the rendered utility weight. -/
structure SoftGoal where
  fluentName : String
  argsStr : String
  weight : String
  deriving DecidableEq

/-- Embeds get_util_pddl (osp_pddl_writer.py lines 82 to 86). The term
for one soft goal renders the fluent name and the weight of that goal,
but the argument list of the FIRST soft goal: the source passes
self.goals[0][0].args to get_nary_expression_string, which renders the
passed arguments (the receiver fact contributes nothing to them), so
every term reuses the argument rendering of the first pair, taken here as
the parameter first_args. -/
def get_util_pddl (first_args : String) (g : SoftGoal) : String :=
  "(= (" ++ g.fluentName ++ " " ++ first_args ++ ") " ++ g.weight ++ ")"

/-- The argument rendering of the first soft goal, which the source reads
as self.goals[0][0].args inside the loop body; it is demanded only when
the goal list is nonempty, so the default for the empty list is never
rendered. -/
def firstArgsStr (goals : List SoftGoal) : String :=
  (goals.headD { fluentName := "", argsStr := "", weight := "" }).argsStr

/-- Embeds the utility block assembly of OspPDDLWriter._write_problem
(osp_pddl_writer.py lines 88 to 91): a fold over the soft goals in the
original iteration order of the metric, every term carrying the argument
rendering of the first goal. -/
def util_str (goals : List SoftGoal) : String :=
  (goals.foldl (fun acc g => acc ++ " " ++ get_util_pddl (firstArgsStr goals) g) "(:utility")
    ++ ")\n"

/-- Embeds the hard-coded cost bound line (osp_pddl_writer.py line 94). -/
def bound_str : String := " (:bound 3)\n"

/-- The anchor the rewrite replaces (osp_pddl_writer.py line 96). -/
def goalAnchor : String := "(:goal (and ))"

/-- The utility terms as the spec describes them (section 4.6): exactly
one term per soft-goal pair, in the original iteration order of the
oversubscription metric, each term rendering the fact of its own pair
with the arguments of that fact and the weight of that pair. -/
def specUtilTerms : List SoftGoal → String
  | [] => ""
  | g :: gs =>
    " (= (" ++ g.fluentName ++ " " ++ g.argsStr ++ ") " ++ g.weight ++ ")" ++ specUtilTerms gs

/-- Embeds replace_string_in_file (osp_pddl_writer.py lines 99 to 110) on
the in-memory file contents: the assert on the anchor becomes the none
result (a hard error instead of a silent write), otherwise every
occurrence is replaced and the new contents are returned. -/
def replace_string_in_file (contents old_string new_string : String) : Option String :=
  if strContains contents old_string then some (pyReplace contents old_string new_string)
  else none

/-- Embeds OspPDDLWriter._write_problem (osp_pddl_writer.py lines 78 to
96) on the serialized problem text produced by the external PDDL writer:
replace the empty goal declaration by the utility block followed by the
bound line. -/
def write_problem (goals : List SoftGoal) (base : String) : Option String :=
  replace_string_in_file base goalAnchor (util_str goals ++ bound_str)

/-- Embeds the problem-file production of _solve_osp_task (symk.py lines
188 to 199): the engine constructs OspPDDLWriter(problem, ...) passing no
bound, so the rewritten problem text is computed from the problem alone.
The engine parameter plan_cost_bound reaches only the search
configuration default, never the problem text, which this definition
records by taking it as an argument the writer cannot see. -/
def ospProblemText (plan_cost_bound : Option Nat) (goals : List SoftGoal) (base : String) :
    Option String :=
  write_problem goals base

/-! ### OSP precondition checks before any file write (symk.py _solve and
OspPDDLWriter.__init__) -/

/-- The quality metric kinds the writer distinguishes. -/
inductive MetricKind
  | oversub
  | minimizeActionCosts
  | minimizePlanLength
  deriving DecidableEq

/-- Whether a metric is the oversubscription metric. -/
def isOspMetric : MetricKind → Bool
  | MetricKind.oversub => true
  | _ => false

/-- The problem data the OSP precondition checks read: the number of hard
goals and the list of quality metrics. -/
structure OspInput where
  numHardGoals : Nat
  metrics : List MetricKind
  deriving DecidableEq

/-- Embeds the oversubscription branch of SymKOptimalPDDLPlanner._solve
followed by _solve_osp_task up to the file writes: the assert on hard
goals (symk.py lines 148 to 150) fires first; the construction of
OspPDDLWriter then asserts at most two quality metrics, the presence of
the oversubscription metric, and at most one metric after the
oversubscription metric is stripped (osp_pddl_writer.py lines 15, 44 and
61); only after all of these does _solve_osp_task write domain.pddl and
problem.pddl (symk.py lines 198 and 199). The driver-option and
search-configuration rewriting between these checks touches no file. The
result pairs the files written before the flow stops with the error, if
any. -/
def solveOspTrace (p : OspInput) : List String × Option String :=
  if p.numHardGoals ≠ 0 then ([], some "hard goals are not supported by the OSP engine")
  else if 2 < p.metrics.length then ([], some "more than two quality metrics")
  else if ¬ (p.metrics.any isOspMetric) then ([], some "no oversubscription metric")
  else if 1 < (p.metrics.filter (fun m => ¬ isOspMetric m)).length then
    ([], some "more than one metric besides the oversubscription metric")
  else (["domain.pddl", "problem.pddl"], none)

/-! ### Buffered subprocess execution (symk.py lines 212 to 226) -/

/-- What the child process does relative to the wall-clock budget: either
it exits in time with its streams and exit code, or the budget elapses
first. -/
inductive ProcBehavior
  | exitsInTime (out err : String) (code : Int)
  | timesOut
  deriving DecidableEq

/-- The observable outcome of the buffered execution path: the timeout
flag, the captured stream chunks, the exit code read from the process
object, and whether the runner terminated (killed) the child. -/
structure BufferedOutcome where
  timed_out : Bool
  proc_out : List String
  proc_err : List String
  retval : Option Int
  terminated : Bool
  deriving DecidableEq

/-- Embeds the output_stream is None branch of _solve_osp_task (symk.py
lines 212 to 226): communicate either returns the decoded streams and the
exit code, or raises TimeoutExpired, in which case the captured lists keep
their initial empty value, returncode is still None because the process
was neither reaped nor killed (the branch contains no kill or terminate
call), and only the timeout flag is set. -/
def bufferedRun (b : ProcBehavior) : BufferedOutcome :=
  match b with
  | ProcBehavior.exitsInTime out err code =>
    { timed_out := false, proc_out := [out], proc_err := [err],
      retval := some code, terminated := false }
  | ProcBehavior.timesOut =>
    { timed_out := true, proc_out := [], proc_err := [],
      retval := none, terminated := false }

/-! ### Final status resolution of the OSP solve (symk.py lines 258 to 275) -/

/-- Embeds the tail of _solve_osp_task: after the plan file is read back,
the result is TIMEOUT exactly when the timeout flag is set and the exit
code is not 0 (None compares unequal to 0 in the source); otherwise the
status comes from _result_status. plan tells whether a plan was
reconstructed from the plan file. -/
def finalOspStatus (timeout_occurred : Bool) (retval : Option Int) (plan metrics : Bool)
    (guarantee_no_plan_found guarantee_metrics_task : ResultStatus) : ResultStatus :=
  if timeout_occurred = true ∧ retval ≠ some 0 then ResultStatus.TIMEOUT
  else resultStatus metrics plan retval guarantee_no_plan_found guarantee_metrics_task

/-! ### Configuration mutation by the OSP solve path (symk.py lines 141 to
172 and symk_base.py lines 120 to 132) -/

/-- The configuration fields of a constructed engine that _solve can
touch. After SymKOptimalPDDLPlanner.__init__ both search configuration
strings are set, so they are plain strings here. -/
structure EngineConfigState where
  symk_search_config : String
  symk_anytime_search_config : String
  symk_driver_options : Option (List String)
  symk_translate_options : Option (List String)
  symk_preprocess_options : Option (List String)
  symk_search_time_limit : Option String
  log_level : String
  deriving DecidableEq

/-- Embeds replace_search_engine_in_config (symk_base.py lines 120 to
132): find the first opening parenthesis, fail the assert when there is
none, otherwise keep the parameter list (the substring from the first
opening parenthesis onward) and substitute the new engine name before
it. -/
def replace_search_engine_in_config (search_config new_engine : String) : Option String :=
  let idx := (search_config.toList.takeWhile (fun ch => ch ≠ '(')).length
  if idx = search_config.toList.length then none
  else some (new_engine ++ String.mk (search_config.toList.drop idx))

/-- Embeds the configuration mutation performed by
SymKOptimalPDDLPlanner._solve (symk.py lines 147 to 168): outside the
oversubscription branch nothing is touched; inside it the driver options
are overwritten with the tokens --translate --search, the one-shot search
configuration has its engine replaced by sym-osp-fw, and, since ensures
returns true for this engine, after the assert that the anytime
configuration mentions symq its engine is replaced by symq-osp-fw. A
failed assert is the none result. -/
def solveConfigUpdate (c : EngineConfigState) (osp_metric : Bool) : Option EngineConfigState :=
  if osp_metric then
    match replace_search_engine_in_config c.symk_search_config "sym-osp-fw" with
    | none => none
    | some sc =>
      if strContains c.symk_anytime_search_config "symq" then
        match replace_search_engine_in_config c.symk_anytime_search_config "symq-osp-fw" with
        | none => none
        | some asc =>
          some { c with
                 symk_driver_options := some ["--translate", "--search"]
                 symk_search_config := sc
                 symk_anytime_search_config := asc }
      else none
  else some c

/-! ### Concrete inputs used by witnesses and counterexamples -/

/-- The configuration state of a freshly constructed
SymKOptimalPDDLPlanner with default parameters (number_of_plans and
plan_cost_bound both None render as infinity). -/
def cfg0 : EngineConfigState :=
  { symk_search_config := "sym-bd(bound=infinity)"
    symk_anytime_search_config :=
      "symq-bd(plan_selection=top_k(num_plans=infinity,dump_plans=true),bound=infinity,quality=1.0)"
    symk_driver_options := none
    symk_translate_options := none
    symk_preprocess_options := none
    symk_search_time_limit := none
    log_level := "info" }

/-- The configuration state cfg0 after the oversubscription mutation. -/
def cfg1 : EngineConfigState :=
  { symk_search_config := "sym-osp-fw(bound=infinity)"
    symk_anytime_search_config :=
      "symq-osp-fw(plan_selection=top_k(num_plans=infinity,dump_plans=true),bound=infinity,quality=1.0)"
    symk_driver_options := some ["--translate", "--search"]
    symk_translate_options := none
    symk_preprocess_options := none
    symk_search_time_limit := none
    log_level := "info" }

/-- A one-shot command-builder configuration with the search configuration
of the round-trip property. -/
def cfg9 : SymKConfig :=
  { symk_search_config := some "sym-bd(bound=10)"
    symk_anytime_search_config := none
    symk_driver_options := none
    symk_translate_options := none
    symk_preprocess_options := none
    symk_search_time_limit := none
    log_level := "info"
    interpreter := "python3"
    downward := "fast-downward.py" }

/-- The two soft goals of the spec example for the transformer. -/
def demoGoals : List SoftGoal :=
  [{ fluentName := "at", argsStr := "x", weight := "5" },
   { fluentName := "at", argsStr := "y", weight := "3" }]

/-- A serialized problem text containing the goal anchor. -/
def demoBase : String := "(define (problem p) (:goal (and )) )"

/-- A single soft goal for the bound-line property. -/
def demoGoals10 : List SoftGoal := [{ fluentName := "at", argsStr := "x", weight := "5" }]

/-- A serialized problem text that is exactly the goal anchor. -/
def demoBase10 : String := "(:goal (and ))"

/-! ### Helper lemmas -/

/-- The classification of _result_status never yields TIMEOUT when the
two guarantee parameters are not TIMEOUT. -/
theorem resultStatus_ne_timeout (metrics plan : Bool) (r : Option Int)
    (g1 g2 : ResultStatus) (h1 : g1 ≠ ResultStatus.TIMEOUT)
    (h2 : g2 ≠ ResultStatus.TIMEOUT) :
    resultStatus metrics plan r g1 g2 ≠ ResultStatus.TIMEOUT := by
  unfold resultStatus
  cases r with
  | none => cases plan <;> cases metrics <;> simp_all
  | some v =>
    by_cases hv : v = 0 ∨ v = 1 ∨ v = 2 ∨ v = 3 <;>
      by_cases hw : v = 10 ∨ v = 11 <;>
        by_cases hx : v = 12 <;>
          cases plan <;> cases metrics <;> simp_all

/-! ### Claim theorems -/

/-- Claim C1: for every (exit code, plan found, quality metrics) input,
_result_status returns exactly the status of the spec table of section
4.5; in particular exit code 11 with a plan present still yields
UNSOLVABLE_PROVEN (the exit code dominates plan presence). -/
theorem result_status_matches_spec_table (metrics plan : Bool) (retval : Option Int)
    (g_no_plan g_metrics : ResultStatus) :
    resultStatus metrics plan retval g_no_plan g_metrics
        = specClassify plan retval metrics g_no_plan g_metrics
      ∧ resultStatus metrics true (some 11) g_no_plan g_metrics
        = ResultStatus.UNSOLVABLE_PROVEN := by
  refine ⟨?_, rfl⟩
  cases retval <;> rfl

/-- Claim C2: for every configuration and every triple of file paths, the
one-shot and anytime builders produce exactly the token sequence of the
spec in its fixed order, and with every optional field absent only the
mandatory tokens remain, so absent fields contribute zero tokens.
Determinism is inherent: both builders are pure functions of their
arguments in this embedding, so identical inputs give identical token
sequences. -/
theorem command_tokens_match_spec (c : SymKConfig) (d p f : String) :
    get_cmd c d p f = specTokens Mode.oneShot c d p f
      ∧ get_anytime_cmd c d p f = specTokens Mode.anytime c d p f
      ∧ get_cmd (clearOptions c) d p f
        = [c.interpreter, c.downward, "--plan-file", f, "--log-level", c.log_level, d, p] := by
  obtain ⟨sc, asc, dro, tro, pro, tl, ll, ip, dw⟩ := c
  refine ⟨?_, ?_, rfl⟩ <;>
    cases dro <;> cases tro <;> cases pro <;> cases tl <;> cases sc <;> cases asc <;>
      simp [get_cmd, get_anytime_cmd, base_cmd, translate_chunk, preprocess_chunk,
        search_chunk, specTokens, List.append_assoc]

/-- Claim C3, evaluated at the failing input: with the two soft goals of
the spec example, whose facts have different arguments (at x with weight
5 and at y with weight 3), the code renders the second utility term with
the arguments of the FIRST goal, producing the block with two at x terms;
the produced block therefore differs from the per-pair rendering the
claim and the spec describe, which would contain the at y term. The
anchor replacement and the hard error on a missing anchor behave as
claimed, but the terms do not. -/
theorem osp_write_problem_first_args_bug :
    write_problem demoGoals demoBase
      = some "(define (problem p) (:utility (= (at x) 5) (= (at x) 3))\n (:bound 3)\n )"
    ∧ util_str demoGoals ≠ "(:utility" ++ specUtilTerms demoGoals ++ ")\n"
    ∧ specUtilTerms demoGoals = " (= (at x) 5) (= (at y) 3)"
    ∧ write_problem demoGoals "(define (problem p))" = none := by decide

/-- Claim C4: a problem entering the oversubscription solve with at least
one hard goal, or with more than the allowed two quality metrics, fails
with an error before any domain or problem file is written. -/
theorem osp_precondition_fails_before_write (p : OspInput)
    (hosp : p.metrics.any isOspMetric = true)
    (hbad : 0 < p.numHardGoals ∨ 2 < p.metrics.length) :
    (solveOspTrace p).1 = [] ∧ (solveOspTrace p).2.isSome = true := by
  by_cases h1 : p.numHardGoals ≠ 0
  · simp [solveOspTrace, h1]
  · have h0 : p.numHardGoals = 0 := by omega
    rcases hbad with hb | hb
    · omega
    · simp [solveOspTrace, h0, hb]

/-- Witness for claim C4: one hard goal next to the oversubscription
metric stops the flow with an error and no file written. -/
theorem osp_precondition_fails_before_write_witness :
    (OspInput.mk 1 [MetricKind.oversub]).metrics.any isOspMetric = true
    ∧ (solveOspTrace (OspInput.mk 1 [MetricKind.oversub])).1 = []
    ∧ (solveOspTrace (OspInput.mk 1 [MetricKind.oversub])).2.isSome = true :=
  ⟨by decide,
   (osp_precondition_fails_before_write (OspInput.mk 1 [MetricKind.oversub])
     (by decide) (Or.inl (by decide))).1,
   (osp_precondition_fails_before_write (OspInput.mk 1 [MetricKind.oversub])
     (by decide) (Or.inl (by decide))).2⟩

/-- Claim C5 counterexample: on the spec line sequence the scanner emits
exactly one plan event, but its single step is a bare pair of
parentheses, not the step containing the action name: the action line
begins with an opening parenthesis, so the substring before the first
opening parenthesis is empty and parse_plan_line wraps the empty
string. -/
theorem plan_scan_demo_counterexample :
    (scanLines demoLines).plans ≠ [["(move)"]]
    ∧ (scanLines demoLines).plans = [["()"]] := by decide

/-- Claim C5 as amended: the spec line sequence produces exactly one plan
event whose single step is a bare pair of parentheses, because the
substring of the action line before its first opening parenthesis is
empty; the header line is recognized, the timestamp-tagged cost line is
rewritten to the empty string and thus ignored, and the step count line
terminates the plan. -/
theorem plan_scan_demo_amended :
    (scanLines demoLines).plans = [["()"]]
    ∧ parse_plan_line "(move a b)" = "()"
    ∧ parse_plan_line "[t=0.1s, 10 KB] Plan cost: 1" = "" := by decide

/-- Claim C6 counterexample: in the buffered path a timeout leaves the
child process running: the outcome records the timeout but no termination
of the child happened, because the source branch contains no kill call,
refuting the claim that the process is terminated. -/
theorem buffered_timeout_counterexample :
    (bufferedRun ProcBehavior.timesOut).timed_out = true
    ∧ (bufferedRun ProcBehavior.timesOut).terminated = false := by decide

/-- Claim C6 as amended: in the buffered path, when the timeout elapses
before the process exits, the process is not terminated and a timed-out
outcome is reported with the output captured so far, which in this path
is empty, and with no exit code; whenever the process exits in time, the
exit code of the outcome is populated. -/
theorem buffered_run_amended (b : ProcBehavior) :
    ((bufferedRun b).timed_out = true →
      (bufferedRun b).terminated = false
      ∧ (bufferedRun b).retval = none
      ∧ (bufferedRun b).proc_out = []
      ∧ (bufferedRun b).proc_err = [])
    ∧ (∀ out err code, b = ProcBehavior.exitsInTime out err code →
        (bufferedRun b).retval = some code ∧ (bufferedRun b).timed_out = false) := by
  cases b <;> simp [bufferedRun]

/-- Witness for claim C6 as amended, at a timed-out run and at a run that
exits in time with code 0. -/
theorem buffered_run_amended_witness :
    ((bufferedRun ProcBehavior.timesOut).terminated = false
      ∧ (bufferedRun ProcBehavior.timesOut).retval = none
      ∧ (bufferedRun ProcBehavior.timesOut).proc_out = []
      ∧ (bufferedRun ProcBehavior.timesOut).proc_err = [])
    ∧ (bufferedRun (ProcBehavior.exitsInTime "out" "err" 0)).retval = some 0 :=
  ⟨(buffered_run_amended ProcBehavior.timesOut).1 rfl,
   ((buffered_run_amended (ProcBehavior.exitsInTime "out" "err" 0)).2
      "out" "err" 0 rfl).1⟩

/-- Claim C7 counterexample: a timed-out run whose process has no exit
code is classified TIMEOUT even though a plan was produced (the plan
argument is true), refuting the claim that a timeout with a plan present
is classified as a success. -/
theorem timeout_with_plan_counterexample :
    finalOspStatus true none true true ResultStatus.UNSOLVABLE_PROVEN
        ResultStatus.SOLVED_OPTIMALLY = ResultStatus.TIMEOUT := by decide

/-- Claim C7 as amended: the result is TIMEOUT exactly when the timeout
fired and the exit code is not 0, independent of plan presence; only a
timeout with exit code 0 falls through to the normal classification. -/
theorem timeout_status_amended (t : Bool) (r : Option Int) (plan metrics : Bool)
    (g1 g2 : ResultStatus) (h1 : g1 ≠ ResultStatus.TIMEOUT)
    (h2 : g2 ≠ ResultStatus.TIMEOUT) :
    finalOspStatus t r plan metrics g1 g2 = ResultStatus.TIMEOUT
      ↔ (t = true ∧ r ≠ some 0) := by
  unfold finalOspStatus
  split
  · next hc => simp [hc]
  · next hc => simp [hc, resultStatus_ne_timeout metrics plan r g1 g2 h1 h2]

/-- Witness for claim C7 as amended, at a timed-out run with a plan
present and no exit code. -/
theorem timeout_status_amended_witness :
    ResultStatus.UNSOLVABLE_PROVEN ≠ ResultStatus.TIMEOUT
    ∧ ResultStatus.SOLVED_OPTIMALLY ≠ ResultStatus.TIMEOUT
    ∧ (finalOspStatus true none true true ResultStatus.UNSOLVABLE_PROVEN
          ResultStatus.SOLVED_OPTIMALLY = ResultStatus.TIMEOUT
        ↔ (true = true ∧ (none : Option Int) ≠ some 0)) :=
  ⟨by decide, by decide,
   timeout_status_amended true none true true ResultStatus.UNSOLVABLE_PROVEN
     ResultStatus.SOLVED_OPTIMALLY (by decide) (by decide)⟩

/-- Claim C8 counterexample: the oversubscription solve path overwrites
the driver options of a freshly constructed default engine, a mutation of
a configuration field other than the two search configurations, refuting
the claim that only the controlled search-engine substitution mutates the
configuration. -/
theorem solve_mutates_driver_options :
    cfg0.symk_driver_options = none
    ∧ (solveConfigUpdate cfg0 true).map (fun c => c.symk_driver_options)
        = some (some ["--translate", "--search"]) := by decide

/-- Claim C8 as amended: a solve call leaves the translate options, the
preprocess options, the time limit and the log level unchanged; a
non-oversubscription solve changes nothing; an oversubscription solve
additionally sets the driver options to the tokens --translate --search
and substitutes the engines of both search configurations while
preserving their parameter lists (the substring from the first opening
parenthesis onward). -/
theorem solve_config_update_amended (c c' : EngineConfigState) (osp : Bool)
    (h : solveConfigUpdate c osp = some c') :
    c'.symk_translate_options = c.symk_translate_options
    ∧ c'.symk_preprocess_options = c.symk_preprocess_options
    ∧ c'.symk_search_time_limit = c.symk_search_time_limit
    ∧ c'.log_level = c.log_level
    ∧ (osp = false → c' = c)
    ∧ (osp = true →
        c'.symk_driver_options = some ["--translate", "--search"]
        ∧ replace_search_engine_in_config c.symk_search_config "sym-osp-fw"
            = some c'.symk_search_config
        ∧ replace_search_engine_in_config c.symk_anytime_search_config "symq-osp-fw"
            = some c'.symk_anytime_search_config) := by
  cases osp with
  | false =>
    simp only [solveConfigUpdate, Bool.false_eq_true, if_false] at h
    injection h with h
    subst h
    simp
  | true =>
    unfold solveConfigUpdate at h
    rw [if_pos rfl] at h
    split at h
    · exact Option.noConfusion h
    · rename_i sc hsc
      split at h
      · split at h
        · exact Option.noConfusion h
        · rename_i asc hac
          injection h with h
          subst h
          refine ⟨rfl, rfl, rfl, rfl, by simp, fun _ => ⟨rfl, ?_, ?_⟩⟩
          · rw [hsc]
          · rw [hac]
      · exact Option.noConfusion h

/-- Witness for claim C8 as amended: the default engine configuration,
mutated by an oversubscription solve, keeps its other fields and carries
the rewritten driver options and search engines. -/
theorem solve_config_update_amended_witness :
    solveConfigUpdate cfg0 true = some cfg1
    ∧ cfg1.symk_driver_options = some ["--translate", "--search"]
    ∧ cfg1.symk_translate_options = cfg0.symk_translate_options :=
  ⟨by decide,
   ((solve_config_update_amended cfg0 cfg1 true (by decide)).2.2.2.2.2 rfl).1,
   (solve_config_update_amended cfg0 cfg1 true (by decide)).1⟩

/-- Claim C9: a one-shot invocation built from a configuration whose
search string is sym-bd(bound=10) always has the token --search
immediately followed by the single literal token sym-bd(bound=10):
whitespace splitting leaves a whitespace-free configuration string intact
as one token, and the search options are the final tokens of the
command. -/
theorem search_token_adjacency (c : SymKConfig) (d p f : String)
    (h : c.symk_search_config = some "sym-bd(bound=10)") :
    ∃ l, get_cmd c d p f
        = l ++ ["--search-options", "--search", "sym-bd(bound=10)"] := by
  refine ⟨base_cmd c f ++ [d, p] ++ translate_chunk c ++ preprocess_chunk c, ?_⟩
  have hs : search_chunk c.symk_search_config
      = ["--search-options", "--search", "sym-bd(bound=10)"] := by
    rw [h]
    decide
  unfold get_cmd
  rw [hs]

/-- Witness for claim C9 at a concrete configuration and concrete
paths. -/
theorem search_token_adjacency_witness :
    cfg9.symk_search_config = some "sym-bd(bound=10)"
    ∧ ∃ l, get_cmd cfg9 "d.pddl" "p.pddl" "plan.txt"
        = l ++ ["--search-options", "--search", "sym-bd(bound=10)"] :=
  ⟨rfl, search_token_adjacency cfg9 "d.pddl" "p.pddl" "plan.txt" rfl⟩

/-- Claim C10: the cost bound line inserted into the rewritten problem
text is literally the string (:bound 3), independent of the engine
parameter plan_cost_bound and of the problem data; the writer never
receives the bound, so it is not configurable through the public
interface. -/
theorem bound_line_constant (b1 b2 : Option Nat) (goals : List SoftGoal) (base : String) :
    ospProblemText b1 goals base = ospProblemText b2 goals base
    ∧ (∀ out, ospProblemText b1 goals base = some out →
        out = pyReplace base goalAnchor (util_str goals ++ " (:bound 3)\n")) := by
  constructor
  · rfl
  · intro out hout
    unfold ospProblemText write_problem replace_string_in_file at hout
    split at hout
    · injection hout with hout
      subst hout
      rfl
    · exact Option.noConfusion hout

/-- Witness for claim C10: at a concrete soft goal and problem text, a
changed plan cost bound leaves the output identical, and the output
carries the literal bound line. -/
theorem bound_line_constant_witness :
    ospProblemText (some 7) demoGoals10 demoBase10 = ospProblemText none demoGoals10 demoBase10
    ∧ "(:utility (= (at x) 5))\n (:bound 3)\n"
        = pyReplace demoBase10 goalAnchor (util_str demoGoals10 ++ " (:bound 3)\n") :=
  ⟨(bound_line_constant (some 7) none demoGoals10 demoBase10).1,
   (bound_line_constant (some 7) none demoGoals10 demoBase10).2
     "(:utility (= (at x) 5))\n (:bound 3)\n" (by decide)⟩

end UpSymk
